import Mathlib

/-!
Verification development for the osuAkatsuki/otp-service-client-go library.

The Go sources are shallowly embedded:
* `internal/http_client/http_client.go` — generic HTTP transport helpers
  (`Get`, `Post`, `PostWithBody`, `PostWithNoContent`,
  `PostWithBodyWithNoContent`, `DeleteWithNoContent`).
* the client package (`OtpClient` and the six domain operations).

The network is modelled as an oracle `Net` mapping the built outbound
request to either a transport error (a failing `http.DefaultClient.Do`)
or a wire response whose body read (`io.ReadAll`) may itself fail.
JSON byte strings that reach a decoder are modelled as `Option Json`:
`none` stands for bytes that are not valid JSON (including the empty
body), `some j` for bytes whose parsed form is `j`.  Each transport
function also records the list of requests it dispatched, so theorems
can speak about what was sent over the wire.
-/

namespace OtpClientGo

/-- Parsed JSON values, the model of response/request byte bodies. -/
inductive Json where
  | null : Json
  | bool (b : Bool) : Json
  | num (n : Int) : Json
  | str (s : String) : Json
  | arr (elems : List Json) : Json
  | obj (fields : List (String × Json)) : Json

/-- Field lookup in a JSON object; on duplicate keys the last value wins,
as in Go's `encoding/json.Unmarshal`. -/
def lookupLast (fields : List (String × Json)) (key : String) : Option Json :=
  match fields with
  | [] => none
  | (k, v) :: rest =>
    match lookupLast rest key with
    | some r => some r
    | none => if k = key then some v else none

/-- Decode a `bool` struct field as `encoding/json` does: a missing field or
an explicit `null` leaves the zero value `false`; a non-boolean value is a
type error. -/
def decodeBoolField (fields : List (String × Json)) (key : String) : Except String Bool :=
  match lookupLast fields key with
  | none => Except.ok false
  | some Json.null => Except.ok false
  | some (Json.bool b) => Except.ok b
  | some _ => Except.error ("json: cannot unmarshal value into field " ++ key ++ " of type bool")

/-- Decode a `string` struct field as `encoding/json` does: a missing field
or an explicit `null` leaves the zero value `""`; a non-string value is a
type error. -/
def decodeStrField (fields : List (String × Json)) (key : String) : Except String String :=
  match lookupLast fields key with
  | none => Except.ok ""
  | some Json.null => Except.ok ""
  | some (Json.str s) => Except.ok s
  | some _ => Except.error ("json: cannot unmarshal value into field " ++ key ++ " of type string")

/-- Type class standing for `encoding/json.Unmarshal` at a fixed Go struct
type: how a parsed JSON value decodes into that type. -/
class FromJson (T : Type) where
  fromJson : Json → Except String T

/-- Type class standing for `encoding/json.Marshal` at a fixed Go struct
type (fallible, as in Go, though the instances used here never fail). -/
class ToJsonString (T : Type) where
  marshal : T → Except String String

/-- Source `http_client.go` line 408: `parseJson[T](s []byte)` wraps
`json.Unmarshal`.  `none` models bytes that are not valid JSON (the empty
body included), on which `Unmarshal` fails. -/
def parseJson (T : Type) [FromJson T] : Option Json → Except String T
  | none => Except.error "unexpected end of JSON input"
  | some j => FromJson.fromJson j

/-- Source `http_client.go` line 14: the request descriptor.  Go's `nil` maps are
modelled as empty association lists. -/
structure HttpRequest where
  Url : String
  QueryParameters : List (String × String) := []
  Headers : List (String × String) := []
deriving DecidableEq, Repr

/-- Go map assignment `m[key] = value`: replace the binding if the key is
present, otherwise append it. -/
def mapSet (m : List (String × String)) (key value : String) : List (String × String) :=
  match m with
  | [] => [(key, value)]
  | (k, v) :: rest => if k = key then (key, value) :: rest else (k, v) :: mapSet rest key value

/-- Source `http_client.go` line 20: `(r *HttpRequest) AddHeader`. -/
def HttpRequest.AddHeader (r : HttpRequest) (key value : String) : HttpRequest :=
  { r with Headers := mapSet r.Headers key value }

/-- Source `http_client.go` line 28: a request descriptor with a JSON body. -/
structure HttpRequestWithBody (T : Type) extends HttpRequest where
  Body : T

/-- Source `http_client.go` line 10: the `HttpRequestWithHeaders` interface.  Go
mutates the request through a pointer; the model returns the updated
request. -/
class HttpRequestWithHeaders (R : Type) where
  AddHeader : R → String → String → R

instance : HttpRequestWithHeaders HttpRequest :=
  ⟨HttpRequest.AddHeader⟩

instance (T : Type) : HttpRequestWithHeaders (HttpRequestWithBody T) :=
  ⟨fun r key value => { r with toHttpRequest := r.toHttpRequest.AddHeader key value }⟩

/-- Source `http_client.go` line 33: the error payload `{problem: string}`. -/
structure ErrorBody where
  Problem : String
deriving DecidableEq, Repr

instance : Inhabited ErrorBody := ⟨{ Problem := "" }⟩

instance : FromJson ErrorBody :=
  ⟨fun j =>
    match j with
    | Json.null => Except.ok { Problem := "" }
    | Json.obj fields =>
      match decodeStrField fields "problem" with
      | Except.error e => Except.error e
      | Except.ok p => Except.ok { Problem := p }
    | _ => Except.error "json: cannot unmarshal value into Go value of type ErrorBody"⟩

/-- Source `http_client.go` line 37: the transport-level response descriptor. -/
structure HttpResponse where
  StatusCode : Nat
  Headers : List (String × List String) := []
  HasError : Bool := false
  ErrorBody : ErrorBody := { Problem := "" }
deriving DecidableEq, Repr

instance : Inhabited HttpResponse :=
  ⟨{ StatusCode := 0, Headers := [], HasError := false, ErrorBody := { Problem := "" } }⟩

/-- Source `http_client.go` line 44: a response descriptor with a decoded body. -/
structure HttpResponseWithBody (T : Type) extends HttpResponse where
  Body : T

instance (T : Type) [Inhabited T] : Inhabited (HttpResponseWithBody T) :=
  ⟨{ StatusCode := 0, Headers := [], HasError := false, ErrorBody := { Problem := "" },
     Body := default }⟩

/-- Source `http_client.go` line 49. -/
def UserAgent : String := "otp-service-client-go"

/-- An outbound `*http.Request` as handed to `http.DefaultClient.Do`:
method, URL, merged query parameters, headers in the order the Go code
`Add`s them, and the marshalled byte body when one is attached. -/
structure BuiltRequest where
  method : String
  url : String
  query : List (String × String)
  headers : List (String × String)
  body : Option String
deriving DecidableEq, Repr

/-- What the network hands back for one dispatched request: the status
code, the response headers, and the outcome of reading the body stream
(`io.ReadAll` may fail; a successful read yields bytes modelled as
`Option Json`). -/
structure WireResponse where
  status : Nat
  headers : List (String × List String)
  bodyRead : Except String (Option Json)

/-- The network oracle standing for `http.DefaultClient.Do`: either the
call itself fails, or a wire response comes back. -/
def Net : Type := BuiltRequest → Except String WireResponse

/-- Result of one transport helper: the requests it dispatched, the Go
return value, and the Go `error` return. -/
structure TransportResult (R : Type) where
  sent : List BuiltRequest
  value : R
  err : Option String

/-- The request-building phase of `Get` (`http_client.go` lines 52-69):
query parameters merged, caller headers added, then the fixed user agent
added last. -/
def getBuild (request : HttpRequest) : BuiltRequest :=
  { method := "GET", url := request.Url, query := request.QueryParameters,
    headers := request.Headers ++ [("User-Agent", UserAgent)], body := none }

/-- Source `Get`, lines 99-109: after the error-payload phase, return at 404,
otherwise decode the body into the success type. -/
def getFinish (T : Type) [FromJson T] (body : Option Json)
    (response : HttpResponseWithBody T) : HttpResponseWithBody T × Option String :=
  if response.StatusCode = 404 then (response, none)
  else
    match parseJson T body with
    | Except.error err => (response, some err)
    | Except.ok jsonBody => ({ response with Body := jsonBody }, none)

/-- Source `Get`, lines 71-109: the response-handling phase, from the `Do` result
to the returned `(HttpResponseWithBody[T], error)` pair. -/
def getRespond (T : Type) [Inhabited T] [FromJson T] :
    Except String WireResponse → HttpResponseWithBody T × Option String
  | Except.error err => (default, some err)
  | Except.ok resp =>
    let response : HttpResponseWithBody T :=
      { StatusCode := resp.status, Headers := resp.headers, HasError := false,
        ErrorBody := { Problem := "" }, Body := default }
    match resp.bodyRead with
    | Except.error err => (response, some err)
    | Except.ok body =>
      if (resp.status < 200 ∨ 299 < resp.status) ∧ resp.status ≠ 404 then
        match parseJson ErrorBody body with
        | Except.error err => (response, some err)
        | Except.ok errorJson =>
          getFinish T body { response with ErrorBody := errorJson, HasError := true }
      else
        getFinish T body response

/-- Source `http_client.go` line 51: `Get[T]`. -/
def Get (T : Type) [Inhabited T] [FromJson T] (net : Net) (request : HttpRequest) :
    TransportResult (HttpResponseWithBody T) :=
  let req := getBuild request
  let out := getRespond T (net req)
  { sent := [req], value := out.1, err := out.2 }

/-- The request-building phase of `Post` (`http_client.go` lines 113-130). -/
def postBuild (request : HttpRequest) : BuiltRequest :=
  { method := "POST", url := request.Url, query := request.QueryParameters,
    headers := request.Headers ++ [("User-Agent", UserAgent)], body := none }

/-- Source `Post`, lines 160-170: after the error-payload phase, return at 204 or
404, otherwise decode the body into the success type. -/
def postFinish (T : Type) [FromJson T] (body : Option Json)
    (response : HttpResponseWithBody T) : HttpResponseWithBody T × Option String :=
  if response.StatusCode = 204 ∨ response.StatusCode = 404 then (response, none)
  else
    match parseJson T body with
    | Except.error err => (response, some err)
    | Except.ok jsonBody => ({ response with Body := jsonBody }, none)

/-- Source `Post`, lines 132-170 (also the identical tail of `PostWithBody`,
lines 201-239): the response-handling phase. -/
def postRespond (T : Type) [Inhabited T] [FromJson T] :
    Except String WireResponse → HttpResponseWithBody T × Option String
  | Except.error err => (default, some err)
  | Except.ok resp =>
    let response : HttpResponseWithBody T :=
      { StatusCode := resp.status, Headers := resp.headers, HasError := false,
        ErrorBody := { Problem := "" }, Body := default }
    match resp.bodyRead with
    | Except.error err => (response, some err)
    | Except.ok body =>
      if (resp.status < 200 ∨ 299 < resp.status) ∧ resp.status ≠ 404 then
        match parseJson ErrorBody body with
        | Except.error err => (response, some err)
        | Except.ok errorJson =>
          postFinish T body { response with ErrorBody := errorJson, HasError := true }
      else
        postFinish T body response

/-- Source `http_client.go` line 112: `Post[T]`. -/
def Post (T : Type) [Inhabited T] [FromJson T] (net : Net) (request : HttpRequest) :
    TransportResult (HttpResponseWithBody T) :=
  let req := postBuild request
  let out := postRespond T (net req)
  { sent := [req], value := out.1, err := out.2 }

/-- The request-building phase of `PostWithBody` (lines 174-199): the
marshalled body is attached and `Content-Type: application/json` is added
before the user agent. -/
def postWithBodyBuild (T : Type) (request : HttpRequestWithBody T)
    (byteData : String) : BuiltRequest :=
  { method := "POST", url := request.Url, query := request.QueryParameters,
    headers := request.Headers ++
      [("Content-Type", "application/json"), ("User-Agent", UserAgent)],
    body := some byteData }

/-- Source `http_client.go` line 173: `PostWithBody[T, T1]`.  When `json.Marshal`
fails no request is dispatched. -/
def PostWithBody (T T1 : Type) [ToJsonString T] [Inhabited T1] [FromJson T1]
    (net : Net) (request : HttpRequestWithBody T) :
    TransportResult (HttpResponseWithBody T1) :=
  match ToJsonString.marshal request.Body with
  | Except.error err => { sent := [], value := default, err := some err }
  | Except.ok byteData =>
    let req := postWithBodyBuild T request byteData
    let out := postRespond T1 (net req)
    { sent := [req], value := out.1, err := out.2 }

/-- Sources `PostWithNoContent` / `PostWithBodyWithNoContent` / `DeleteWithNoContent`,
closing lines (288-292, 348-352, 401-405): return at 404, and return the
same way on every other status; no success-type decode exists. -/
def noContentFinish (response : HttpResponse) : HttpResponse × Option String :=
  if response.StatusCode = 404 then (response, none) else (response, none)

/-- The shared response-handling phase of the three no-content transport
helpers (lines 262-292, 322-352, 375-405). -/
def noContentRespond : Except String WireResponse → HttpResponse × Option String
  | Except.error err => (default, some err)
  | Except.ok resp =>
    let response : HttpResponse :=
      { StatusCode := resp.status, Headers := resp.headers, HasError := false,
        ErrorBody := { Problem := "" } }
    match resp.bodyRead with
    | Except.error err => (response, some err)
    | Except.ok body =>
      if (resp.status < 200 ∨ 299 < resp.status) ∧ resp.status ≠ 404 then
        match parseJson ErrorBody body with
        | Except.error err => (response, some err)
        | Except.ok errorJson =>
          noContentFinish { response with ErrorBody := errorJson, HasError := true }
      else
        noContentFinish response

/-- Source `http_client.go` line 242: `PostWithNoContent`. -/
def PostWithNoContent (net : Net) (request : HttpRequest) : TransportResult HttpResponse :=
  let req := postBuild request
  let out := noContentRespond (net req)
  { sent := [req], value := out.1, err := out.2 }

/-- The request-building phase of `PostWithBodyWithNoContent`
(lines 296-320): the marshalled body is attached, and only the user agent
header is added after the caller's headers — no `Content-Type`. -/
def postWithBodyNoContentBuild (T : Type) (request : HttpRequestWithBody T)
    (byteData : String) : BuiltRequest :=
  { method := "POST", url := request.Url, query := request.QueryParameters,
    headers := request.Headers ++ [("User-Agent", UserAgent)],
    body := some byteData }

/-- Source `http_client.go` line 295: `PostWithBodyWithNoContent[T]`. -/
def PostWithBodyWithNoContent (T : Type) [ToJsonString T] (net : Net)
    (request : HttpRequestWithBody T) : TransportResult HttpResponse :=
  match ToJsonString.marshal request.Body with
  | Except.error err => { sent := [], value := default, err := some err }
  | Except.ok byteData =>
    let req := postWithBodyNoContentBuild T request byteData
    let out := noContentRespond (net req)
    { sent := [req], value := out.1, err := out.2 }

/-- The request-building phase of `DeleteWithNoContent` (lines 356-373). -/
def deleteBuild (request : HttpRequest) : BuiltRequest :=
  { method := "DELETE", url := request.Url, query := request.QueryParameters,
    headers := request.Headers ++ [("User-Agent", UserAgent)], body := none }

/-- Source `http_client.go` line 355: `DeleteWithNoContent`. -/
def DeleteWithNoContent (net : Net) (request : HttpRequest) : TransportResult HttpResponse :=
  let req := deleteBuild request
  let out := noContentRespond (net req)
  { sent := [req], value := out.1, err := out.2 }

/-- The client configuration (client package, `OtpClient` struct). -/
structure OtpClient where
  BaseUrl : String
  Secret : String
deriving DecidableEq, Repr

/-- Models `NewOtpClient`. -/
def NewOtpClient (baseUrl secret : String) : OtpClient :=
  { BaseUrl := baseUrl, Secret := secret }

/-- The domain `error` values a client operation can return:
the four typed errors of `client/errors.go`, plus transport-level
failures (network, body read, JSON decode) propagated unchanged. -/
inductive OpError where
  | notFoundError : OpError
  | badRequestError (Problem : String) : OpError
  | conflictError (Problem : String) : OpError
  | unknownError (Problem : String) : OpError
  | transportError (msg : String) : OpError
deriving DecidableEq, Repr

/-- Models `handleResponse` of the client package: 404 maps to `NotFoundError`
first; then, with the error flag set, the status switches among
`BadRequestError`, `ConflictError` and `UnknownError`; otherwise nil. -/
def handleResponse (resp : HttpResponse) : Option OpError :=
  if resp.StatusCode = 404 then some OpError.notFoundError
  else if resp.HasError then
    (if resp.StatusCode = 400 then some (OpError.badRequestError resp.ErrorBody.Problem)
     else if resp.StatusCode = 409 then some (OpError.conflictError resp.ErrorBody.Problem)
     else some (OpError.unknownError resp.ErrorBody.Problem))
  else none

/-- Models `handleResponseWithBody[T]`: the zero value and the error when
`handleResponse` yields one, else the decoded body. -/
def handleResponseWithBody (T : Type) [Inhabited T] (resp : HttpResponseWithBody T) :
    T × Option OpError :=
  match handleResponse resp.toHttpResponse with
  | some err => ((default : T), some err)
  | none => (resp.Body, none)

/-- Models `prepareRequest`: adds the `X-Secret` header from the client
configuration.  Go mutates the request through the
`HttpRequestWithHeaders` interface and leaves `oc` untouched; the model
returns both the (unchanged) client and the updated request. -/
def prepareRequest (R : Type) [HttpRequestWithHeaders R] (oc : OtpClient) (request : R) :
    OtpClient × R :=
  (oc, HttpRequestWithHeaders.AddHeader request "X-Secret" oc.Secret)

/-- Result of a domain operation with a response body: final client state
(the Go code holds the client behind a pointer), dispatched requests,
returned value and returned error. -/
structure OpResult (T : Type) where
  client : OtpClient
  sent : List BuiltRequest
  value : T
  err : Option OpError

/-- Result of a no-content domain operation. -/
structure OpUnitResult where
  client : OtpClient
  sent : List BuiltRequest
  err : Option OpError

/-- Models `getRequest[T]`. -/
def getRequest (T : Type) [Inhabited T] [FromJson T] (oc : OtpClient)
    (request : HttpRequest) (net : Net) : OpResult T :=
  let (oc2, request2) := prepareRequest HttpRequest oc request
  let r := Get T net request2
  let out : T × Option OpError :=
    match r.err with
    | some e => ((default : T), some (OpError.transportError e))
    | none => handleResponseWithBody T r.value
  { client := oc2, sent := r.sent, value := out.1, err := out.2 }

/-- Models `postRequest[T]`. -/
def postRequest (T : Type) [Inhabited T] [FromJson T] (oc : OtpClient)
    (request : HttpRequest) (net : Net) : OpResult T :=
  let (oc2, request2) := prepareRequest HttpRequest oc request
  let r := Post T net request2
  let out : T × Option OpError :=
    match r.err with
    | some e => ((default : T), some (OpError.transportError e))
    | none => handleResponseWithBody T r.value
  { client := oc2, sent := r.sent, value := out.1, err := out.2 }

/-- Models `postRequestWithNoContent`. -/
def postRequestWithNoContent (oc : OtpClient) (request : HttpRequest) (net : Net) :
    OpUnitResult :=
  let (oc2, request2) := prepareRequest HttpRequest oc request
  let r := PostWithNoContent net request2
  let out : Option OpError :=
    match r.err with
    | some e => some (OpError.transportError e)
    | none => handleResponse r.value
  { client := oc2, sent := r.sent, err := out }

/-- Models `postRequestWithBodyWithNoContent[T]`. -/
def postRequestWithBodyWithNoContent (T : Type) [ToJsonString T] (oc : OtpClient)
    (request : HttpRequestWithBody T) (net : Net) : OpUnitResult :=
  let (oc2, request2) := prepareRequest (HttpRequestWithBody T) oc request
  let r := PostWithBodyWithNoContent T net request2
  let out : Option OpError :=
    match r.err with
    | some e => some (OpError.transportError e)
    | none => handleResponse r.value
  { client := oc2, sent := r.sent, err := out }

/-- Models `deleteRequestWithNoContent`. -/
def deleteRequestWithNoContent (oc : OtpClient) (request : HttpRequest) (net : Net) :
    OpUnitResult :=
  let (oc2, request2) := prepareRequest HttpRequest oc request
  let r := DeleteWithNoContent net request2
  let out : Option OpError :=
    match r.err with
    | some e => some (OpError.transportError e)
    | none => handleResponse r.value
  { client := oc2, sent := r.sent, err := out }

/-- The `GetUserOtpResponse` payload. -/
structure GetUserOtpResponse where
  Verified : Bool
  Enabled : Bool
  Secret : String
  AuthUrl : String
deriving DecidableEq, Repr

instance : Inhabited GetUserOtpResponse :=
  ⟨{ Verified := false, Enabled := false, Secret := "", AuthUrl := "" }⟩

instance : FromJson GetUserOtpResponse :=
  ⟨fun j =>
    match j with
    | Json.null => Except.ok default
    | Json.obj fields =>
      match decodeBoolField fields "verified" with
      | Except.error e => Except.error e
      | Except.ok verified =>
        match decodeBoolField fields "enabled" with
        | Except.error e => Except.error e
        | Except.ok enabled =>
          match decodeStrField fields "secret" with
          | Except.error e => Except.error e
          | Except.ok secret =>
            match decodeStrField fields "auth_url" with
            | Except.error e => Except.error e
            | Except.ok authUrl =>
              Except.ok { Verified := verified, Enabled := enabled,
                          Secret := secret, AuthUrl := authUrl }
    | _ => Except.error "json: cannot unmarshal value into Go value of type GetUserOtpResponse"⟩

/-- Models `(oc *OtpClient) GetUserOtp(userId int)`. -/
def OtpClient.GetUserOtp (oc : OtpClient) (userId : Int) (net : Net) :
    OpResult GetUserOtpResponse :=
  let req : HttpRequest := { Url := oc.BaseUrl ++ "/users/" ++ toString userId ++ "/otp" }
  let r := getRequest GetUserOtpResponse oc req net
  let out : GetUserOtpResponse × Option OpError :=
    match r.err with
    | some e => ({ Verified := false, Enabled := false, Secret := "", AuthUrl := "" }, some e)
    | none => (r.value, none)
  { client := r.client, sent := r.sent, value := out.1, err := out.2 }

/-- The `CreateUserOtpResponse` payload. -/
structure CreateUserOtpResponse where
  Secret : String
  AuthUrl : String
deriving DecidableEq, Repr

instance : Inhabited CreateUserOtpResponse := ⟨{ Secret := "", AuthUrl := "" }⟩

instance : FromJson CreateUserOtpResponse :=
  ⟨fun j =>
    match j with
    | Json.null => Except.ok default
    | Json.obj fields =>
      match decodeStrField fields "secret" with
      | Except.error e => Except.error e
      | Except.ok secret =>
        match decodeStrField fields "auth_url" with
        | Except.error e => Except.error e
        | Except.ok authUrl => Except.ok { Secret := secret, AuthUrl := authUrl }
    | _ => Except.error "json: cannot unmarshal value into Go value of type CreateUserOtpResponse"⟩

/-- Models `(oc *OtpClient) CreateUserOtp(userId int)`. -/
def OtpClient.CreateUserOtp (oc : OtpClient) (userId : Int) (net : Net) :
    OpResult CreateUserOtpResponse :=
  let req : HttpRequest := { Url := oc.BaseUrl ++ "/users/" ++ toString userId ++ "/otp" }
  let r := postRequest CreateUserOtpResponse oc req net
  let out : CreateUserOtpResponse × Option OpError :=
    match r.err with
    | some e => ({ Secret := "", AuthUrl := "" }, some e)
    | none => (r.value, none)
  { client := r.client, sent := r.sent, value := out.1, err := out.2 }

/-- Models `(oc *OtpClient) DisableUserOtp(userId int)`. -/
def OtpClient.DisableUserOtp (oc : OtpClient) (userId : Int) (net : Net) : OpUnitResult :=
  let req : HttpRequest := { Url := oc.BaseUrl ++ "/users/" ++ toString userId ++ "/otp/disable" }
  let r := postRequestWithNoContent oc req net
  { client := r.client, sent := r.sent, err := r.err }

/-- Models `(oc *OtpClient) DeleteUserOtp(userId int)`. -/
def OtpClient.DeleteUserOtp (oc : OtpClient) (userId : Int) (net : Net) : OpUnitResult :=
  let req : HttpRequest := { Url := oc.BaseUrl ++ "/users/" ++ toString userId ++ "/otp" }
  let r := deleteRequestWithNoContent oc req net
  { client := r.client, sent := r.sent, err := r.err }

/-- Lowercase hexadecimal digit, as Go's JSON encoder emits in escapes. -/
def hexDigitChar (n : Nat) : Char :=
  if n < 10 then Char.ofNat (48 + n) else Char.ofNat (97 + (n - 10))

/-- One character of Go `encoding/json` string escaping (HTML escaping on,
as `json.Marshal` defaults): quote, backslash, the HTML characters, the
named control escapes, other control characters, and the two Unicode line
separators. -/
def goEscapeChar (c : Char) : String :=
  if c = '"' then "\\\""
  else if c = '\\' then "\\\\"
  else if c = '<' then "\\u003c"
  else if c = '>' then "\\u003e"
  else if c = '&' then "\\u0026"
  else if c = '\n' then "\\n"
  else if c = '\r' then "\\r"
  else if c = '\t' then "\\t"
  else if c.toNat < 32 then
    "\\u00" ++ String.singleton (hexDigitChar (c.toNat / 16)) ++
      String.singleton (hexDigitChar (c.toNat % 16))
  else if c.toNat = 8232 then "\\u2028"
  else if c.toNat = 8233 then "\\u2029"
  else String.singleton c

/-- Go `encoding/json` encoding of a string value. -/
def goQuote (s : String) : String :=
  "\x22" ++ String.join (s.data.map goEscapeChar) ++ "\x22"

/-- The `VerifyOtpRequest` payload. -/
structure VerifyOtpRequest where
  UserId : Int
  Token : String
deriving DecidableEq, Repr

/-- Models `json.Marshal` of a `VerifyOtpRequest`: fields in struct order under
their JSON names. -/
def marshalVerifyOtpRequest (b : VerifyOtpRequest) : String :=
  "\x7b\x22user_id\x22:" ++ toString b.UserId ++ ",\x22token\x22:" ++ goQuote b.Token ++ "\x7d"

instance instToJsonVerify : ToJsonString VerifyOtpRequest :=
  ⟨fun b => Except.ok (marshalVerifyOtpRequest b)⟩

/-- Models `(oc *OtpClient) VerifyOtp(userId int, token string)`. -/
def OtpClient.VerifyOtp (oc : OtpClient) (userId : Int) (token : String) (net : Net) :
    OpUnitResult :=
  let req : HttpRequestWithBody VerifyOtpRequest :=
    { Url := oc.BaseUrl ++ "/otp/verify", Body := { UserId := userId, Token := token } }
  let r := postRequestWithBodyWithNoContent VerifyOtpRequest oc req net
  { client := r.client, sent := r.sent, err := r.err }

/-- The `ValidateOtpRequest` payload. -/
structure ValidateOtpRequest where
  UserId : Int
  Token : String
deriving DecidableEq, Repr

/-- Models `json.Marshal` of a `ValidateOtpRequest`. -/
def marshalValidateOtpRequest (b : ValidateOtpRequest) : String :=
  "\x7b\x22user_id\x22:" ++ toString b.UserId ++ ",\x22token\x22:" ++ goQuote b.Token ++ "\x7d"

instance instToJsonValidate : ToJsonString ValidateOtpRequest :=
  ⟨fun b => Except.ok (marshalValidateOtpRequest b)⟩

/-- Models `(oc *OtpClient) ValidateOtp(userId int, token string)`. -/
def OtpClient.ValidateOtp (oc : OtpClient) (userId : Int) (token : String) (net : Net) :
    OpUnitResult :=
  let req : HttpRequestWithBody ValidateOtpRequest :=
    { Url := oc.BaseUrl ++ "/otp/validate", Body := { UserId := userId, Token := token } }
  let r := postRequestWithBodyWithNoContent ValidateOtpRequest oc req net
  { client := r.client, sent := r.sent, err := r.err }

/-- A network oracle that answers every request with the same wire
response; used to state claims about fixed statuses and bodies. -/
def constNet (status : Nat) (hdrs : List (String × List String))
    (bodyRead : Except String (Option Json)) : Net :=
  fun _ => Except.ok { status := status, headers := hdrs, bodyRead := bodyRead }

/-- A network oracle on which `http.DefaultClient.Do` itself fails. -/
def failNet (msg : String) : Net :=
  fun _ => Except.error msg

/-- The property claimed of every dispatched request: it carries the
configured secret in `X-Secret`, and the fixed user agent is its last
header. -/
def secretAndAgent (secret : String) (br : BuiltRequest) : Prop :=
  ("X-Secret", secret) ∈ br.headers ∧
    br.headers.getLast? = some ("User-Agent", UserAgent)

/-- A sample client configuration used in concrete instantiations. -/
def sampleOc : OtpClient := NewOtpClient "https://otp.example" "hunter2"

/-- A sample well-formed `GetUserOtp` success body. -/
def sampleGetJson : Json :=
  Json.obj [("verified", Json.bool true), ("enabled", Json.bool false),
            ("secret", Json.str "k1"), ("auth_url", Json.str "u1")]

/-- A sample well-formed `CreateUserOtp` success body. -/
def sampleCreateJson : Json :=
  Json.obj [("secret", Json.str "abc"), ("auth_url", Json.str "xyz")]

/-- A sample well-formed error payload body. -/
def sampleProblemJson : Json := Json.obj [("problem", Json.str "boom")]

/-- A body that decodes both as an error payload and as a success type. -/
def sampleMixedJson : Json :=
  Json.obj [("problem", Json.str "x"), ("secret", Json.str "leak")]

/-- A sample request descriptor carrying a JSON body. -/
def sampleBodyReq : HttpRequestWithBody VerifyOtpRequest :=
  { Url := "https://otp.example/otp/verify", Body := { UserId := 1, Token := "t" } }

theorem getRespond_2xx_ok (T : Type) [Inhabited T] [FromJson T]
    (s : Nat) (hdrs : List (String × List String)) (body : Option Json) (v : T)
    (h1 : 200 ≤ s) (h2 : s ≤ 299) (hp : parseJson T body = Except.ok v) :
    getRespond T (Except.ok { status := s, headers := hdrs, bodyRead := Except.ok body }) =
      ({ StatusCode := s, Headers := hdrs, HasError := false,
         ErrorBody := { Problem := "" }, Body := v }, none) := by
  simp only [getRespond, getFinish]
  rw [if_neg (by omega)]
  rw [if_neg (by omega), hp]

theorem getRespond_2xx_fail (T : Type) [Inhabited T] [FromJson T]
    (s : Nat) (hdrs : List (String × List String)) (body : Option Json) (msg : String)
    (h1 : 200 ≤ s) (h2 : s ≤ 299) (hp : parseJson T body = Except.error msg) :
    getRespond T (Except.ok { status := s, headers := hdrs, bodyRead := Except.ok body }) =
      ({ StatusCode := s, Headers := hdrs, HasError := false,
         ErrorBody := { Problem := "" }, Body := default }, some msg) := by
  simp only [getRespond, getFinish]
  rw [if_neg (by omega)]
  rw [if_neg (by omega), hp]

theorem getRespond_404 (T : Type) [Inhabited T] [FromJson T]
    (hdrs : List (String × List String)) (body : Option Json) :
    getRespond T (Except.ok { status := 404, headers := hdrs, bodyRead := Except.ok body }) =
      ({ StatusCode := 404, Headers := hdrs, HasError := false,
         ErrorBody := { Problem := "" }, Body := default }, none) := rfl

theorem getRespond_errStatus_ok (T : Type) [Inhabited T] [FromJson T]
    (s : Nat) (hdrs : List (String × List String)) (body : Option Json)
    (eb : ErrorBody) (v : T)
    (hs : s < 200 ∨ 299 < s) (h404 : s ≠ 404)
    (heb : parseJson ErrorBody body = Except.ok eb)
    (hp : parseJson T body = Except.ok v) :
    getRespond T (Except.ok { status := s, headers := hdrs, bodyRead := Except.ok body }) =
      ({ StatusCode := s, Headers := hdrs, HasError := true, ErrorBody := eb, Body := v },
       none) := by
  simp only [getRespond, getFinish, heb, hp]
  rw [if_pos ⟨hs, h404⟩, if_neg h404]

theorem getRespond_errStatus_fail (T : Type) [Inhabited T] [FromJson T]
    (s : Nat) (hdrs : List (String × List String)) (body : Option Json)
    (eb : ErrorBody) (msg : String)
    (hs : s < 200 ∨ 299 < s) (h404 : s ≠ 404)
    (heb : parseJson ErrorBody body = Except.ok eb)
    (hp : parseJson T body = Except.error msg) :
    getRespond T (Except.ok { status := s, headers := hdrs, bodyRead := Except.ok body }) =
      ({ StatusCode := s, Headers := hdrs, HasError := true, ErrorBody := eb,
         Body := default }, some msg) := by
  simp only [getRespond, getFinish, heb, hp]
  rw [if_pos ⟨hs, h404⟩, if_neg h404]

theorem postRespond_2xx_ok (T : Type) [Inhabited T] [FromJson T]
    (s : Nat) (hdrs : List (String × List String)) (body : Option Json) (v : T)
    (h1 : 200 ≤ s) (h2 : s ≤ 299) (h204 : s ≠ 204) (hp : parseJson T body = Except.ok v) :
    postRespond T (Except.ok { status := s, headers := hdrs, bodyRead := Except.ok body }) =
      ({ StatusCode := s, Headers := hdrs, HasError := false,
         ErrorBody := { Problem := "" }, Body := v }, none) := by
  simp only [postRespond, postFinish]
  rw [if_neg (by omega)]
  rw [if_neg (by omega), hp]

theorem postRespond_204 (T : Type) [Inhabited T] [FromJson T]
    (hdrs : List (String × List String)) (body : Option Json) :
    postRespond T (Except.ok { status := 204, headers := hdrs, bodyRead := Except.ok body }) =
      ({ StatusCode := 204, Headers := hdrs, HasError := false,
         ErrorBody := { Problem := "" }, Body := default }, none) := rfl

theorem postRespond_404 (T : Type) [Inhabited T] [FromJson T]
    (hdrs : List (String × List String)) (body : Option Json) :
    postRespond T (Except.ok { status := 404, headers := hdrs, bodyRead := Except.ok body }) =
      ({ StatusCode := 404, Headers := hdrs, HasError := false,
         ErrorBody := { Problem := "" }, Body := default }, none) := rfl

theorem postRespond_errStatus_ok (T : Type) [Inhabited T] [FromJson T]
    (s : Nat) (hdrs : List (String × List String)) (body : Option Json)
    (eb : ErrorBody) (v : T)
    (hs : s < 200 ∨ 299 < s) (h404 : s ≠ 404)
    (heb : parseJson ErrorBody body = Except.ok eb)
    (hp : parseJson T body = Except.ok v) :
    postRespond T (Except.ok { status := s, headers := hdrs, bodyRead := Except.ok body }) =
      ({ StatusCode := s, Headers := hdrs, HasError := true, ErrorBody := eb, Body := v },
       none) := by
  simp only [postRespond, postFinish, heb, hp]
  rw [if_pos ⟨hs, h404⟩, if_neg (by omega : ¬(s = 204 ∨ s = 404))]

theorem postRespond_errStatus_fail (T : Type) [Inhabited T] [FromJson T]
    (s : Nat) (hdrs : List (String × List String)) (body : Option Json)
    (eb : ErrorBody) (msg : String)
    (hs : s < 200 ∨ 299 < s) (h404 : s ≠ 404)
    (heb : parseJson ErrorBody body = Except.ok eb)
    (hp : parseJson T body = Except.error msg) :
    postRespond T (Except.ok { status := s, headers := hdrs, bodyRead := Except.ok body }) =
      ({ StatusCode := s, Headers := hdrs, HasError := true, ErrorBody := eb,
         Body := default }, some msg) := by
  simp only [postRespond, postFinish, heb, hp]
  rw [if_pos ⟨hs, h404⟩, if_neg (by omega : ¬(s = 204 ∨ s = 404))]

theorem noContentRespond_2xx (s : Nat) (hdrs : List (String × List String))
    (body : Option Json) (h1 : 200 ≤ s) (h2 : s ≤ 299) :
    noContentRespond (Except.ok { status := s, headers := hdrs, bodyRead := Except.ok body }) =
      ({ StatusCode := s, Headers := hdrs, HasError := false,
         ErrorBody := { Problem := "" } }, none) := by
  simp only [noContentRespond, noContentFinish]
  rw [if_neg (by omega)]
  split <;> rfl

theorem noContentRespond_404 (hdrs : List (String × List String)) (body : Option Json) :
    noContentRespond (Except.ok { status := 404, headers := hdrs, bodyRead := Except.ok body }) =
      ({ StatusCode := 404, Headers := hdrs, HasError := false,
         ErrorBody := { Problem := "" } }, none) := rfl

theorem noContentRespond_errStatus (s : Nat) (hdrs : List (String × List String))
    (body : Option Json) (eb : ErrorBody)
    (hs : s < 200 ∨ 299 < s) (h404 : s ≠ 404)
    (heb : parseJson ErrorBody body = Except.ok eb) :
    noContentRespond (Except.ok { status := s, headers := hdrs, bodyRead := Except.ok body }) =
      ({ StatusCode := s, Headers := hdrs, HasError := true, ErrorBody := eb }, none) := by
  simp only [noContentRespond, noContentFinish, heb]
  rw [if_pos ⟨hs, h404⟩, if_neg h404]

theorem handleResponse_noError (s : Nat) (hdrs : List (String × List String))
    (eb : ErrorBody) (h404 : s ≠ 404) :
    handleResponse { StatusCode := s, Headers := hdrs, HasError := false, ErrorBody := eb } =
      none := by
  simp only [handleResponse]
  rw [if_neg h404]
  rfl

theorem handleResponse_404 (hdrs : List (String × List String)) (he : Bool) (eb : ErrorBody) :
    handleResponse { StatusCode := 404, Headers := hdrs, HasError := he, ErrorBody := eb } =
      some OpError.notFoundError := rfl

theorem handleResponse_400 (hdrs : List (String × List String)) (eb : ErrorBody) :
    handleResponse { StatusCode := 400, Headers := hdrs, HasError := true, ErrorBody := eb } =
      some (OpError.badRequestError eb.Problem) := rfl

theorem handleResponse_409 (hdrs : List (String × List String)) (eb : ErrorBody) :
    handleResponse { StatusCode := 409, Headers := hdrs, HasError := true, ErrorBody := eb } =
      some (OpError.conflictError eb.Problem) := rfl

theorem handleResponse_otherErr (s : Nat) (hdrs : List (String × List String))
    (eb : ErrorBody) (h404 : s ≠ 404) (h400 : s ≠ 400) (h409 : s ≠ 409) :
    handleResponse { StatusCode := s, Headers := hdrs, HasError := true, ErrorBody := eb } =
      some (OpError.unknownError eb.Problem) := by
  simp only [handleResponse]
  rw [if_neg h404]
  simp only [if_true]
  rw [if_neg h400, if_neg h409]

/-- C2: for every one of the six operations, a 404 response yields a
`NotFoundError` carrying no problem detail, regardless of the response
body content; the transport skips both the error-payload decode and the
success-type decode on 404 (error flag unset, body left at its zero
value), and the domain layer maps 404 to not-found before inspecting the
error flag. -/
theorem C2_notFound404 (oc : OtpClient) (userId : Int) (token : String)
    (hdrs : List (String × List String)) (body : Option Json) (request : HttpRequest)
    (he : Bool) (eb : ErrorBody) :
    ((OtpClient.GetUserOtp oc userId (constNet 404 hdrs (Except.ok body))).err =
        some OpError.notFoundError) ∧
    ((OtpClient.GetUserOtp oc userId (constNet 404 hdrs (Except.ok body))).value =
        { Verified := false, Enabled := false, Secret := "", AuthUrl := "" }) ∧
    ((OtpClient.CreateUserOtp oc userId (constNet 404 hdrs (Except.ok body))).err =
        some OpError.notFoundError) ∧
    ((OtpClient.CreateUserOtp oc userId (constNet 404 hdrs (Except.ok body))).value =
        { Secret := "", AuthUrl := "" }) ∧
    ((OtpClient.DisableUserOtp oc userId (constNet 404 hdrs (Except.ok body))).err =
        some OpError.notFoundError) ∧
    ((OtpClient.DeleteUserOtp oc userId (constNet 404 hdrs (Except.ok body))).err =
        some OpError.notFoundError) ∧
    ((OtpClient.VerifyOtp oc userId token (constNet 404 hdrs (Except.ok body))).err =
        some OpError.notFoundError) ∧
    ((OtpClient.ValidateOtp oc userId token (constNet 404 hdrs (Except.ok body))).err =
        some OpError.notFoundError) ∧
    ((Get GetUserOtpResponse (constNet 404 hdrs (Except.ok body)) request).err = none) ∧
    ((Get GetUserOtpResponse (constNet 404 hdrs (Except.ok body)) request).value.HasError
        = false) ∧
    ((Get GetUserOtpResponse (constNet 404 hdrs (Except.ok body)) request).value.Body
        = default) ∧
    (handleResponse { StatusCode := 404, Headers := hdrs, HasError := he, ErrorBody := eb } =
        some OpError.notFoundError) :=
  ⟨rfl, rfl, rfl, rfl, rfl, rfl, rfl, rfl, rfl, rfl, rfl, rfl⟩

/-- C3: on a response whose status is not 404, the domain layer maps an
error-flagged response with status 400 to `BadRequestError` carrying the
problem string, status 409 to `ConflictError`, any other status to
`UnknownError`, and an unflagged response to success. -/
theorem C3_domainErrorMapping (resp : HttpResponse) (h404 : resp.StatusCode ≠ 404) :
    (resp.HasError = true → resp.StatusCode = 400 →
      handleResponse resp = some (OpError.badRequestError resp.ErrorBody.Problem)) ∧
    (resp.HasError = true → resp.StatusCode = 409 →
      handleResponse resp = some (OpError.conflictError resp.ErrorBody.Problem)) ∧
    (resp.HasError = true → resp.StatusCode ≠ 400 → resp.StatusCode ≠ 409 →
      handleResponse resp = some (OpError.unknownError resp.ErrorBody.Problem)) ∧
    (resp.HasError = false → handleResponse resp = none) := by
  refine ⟨?_, ?_, ?_, ?_⟩
  · intro hhe hs
    simp [handleResponse, hs, hhe]
  · intro hhe hs
    simp [handleResponse, hs, hhe]
  · intro hhe h400 h409
    simp [handleResponse, hhe, h404, h400, h409]
  · intro hhe
    simp [handleResponse, hhe, h404]

/-- Witness for C3 at a concrete flagged 500 response. -/
theorem C3_domainErrorMapping_witness :
    handleResponse { StatusCode := 500, Headers := [], HasError := true,
                     ErrorBody := { Problem := "zz" } } =
      some (OpError.unknownError "zz") :=
  (C3_domainErrorMapping ⟨500, [], true, ⟨"zz"⟩⟩ (by decide)).2.2.1 rfl (by decide) (by decide)

/-- C5: every request dispatched by any of the six operations carries the
header `X-Secret` with the configured secret, and the fixed user agent
`otp-service-client-go` is its last header, added after the
caller-supplied headers were merged. -/
theorem C5_secretAndUserAgent (oc : OtpClient) (userId : Int) (token : String) (net : Net) :
    List.Forall (secretAndAgent oc.Secret) (OtpClient.GetUserOtp oc userId net).sent ∧
    List.Forall (secretAndAgent oc.Secret) (OtpClient.CreateUserOtp oc userId net).sent ∧
    List.Forall (secretAndAgent oc.Secret) (OtpClient.DisableUserOtp oc userId net).sent ∧
    List.Forall (secretAndAgent oc.Secret) (OtpClient.DeleteUserOtp oc userId net).sent ∧
    List.Forall (secretAndAgent oc.Secret) (OtpClient.VerifyOtp oc userId token net).sent ∧
    List.Forall (secretAndAgent oc.Secret) (OtpClient.ValidateOtp oc userId token net).sent := by
  refine ⟨?_, ?_, ?_, ?_, ?_, ?_⟩ <;>
    exact ⟨List.mem_cons_self _ _, rfl⟩

/-- C6: `VerifyOtp` dispatches exactly one POST request to
`{baseUrl}/otp/verify` whose JSON body is `{"user_id":…,"token":…}` (at
`(42, "123456")` the exact bytes `{"user_id":42,"token":"123456"}`), and
a 204 response yields no error. -/
theorem C6_verifyOtpRequestShape (oc : OtpClient) (userId : Int) (token : String) (net : Net)
    (hdrs : List (String × List String)) (body : Option Json) :
    (OtpClient.VerifyOtp oc userId token net).sent =
      [{ method := "POST", url := oc.BaseUrl ++ "/otp/verify", query := [],
         headers := [("X-Secret", oc.Secret), ("User-Agent", UserAgent)],
         body := some (marshalVerifyOtpRequest { UserId := userId, Token := token }) }] ∧
    marshalVerifyOtpRequest { UserId := 42, Token := "123456" } =
      "\x7b\x22user_id\x22:42,\x22token\x22:\x22123456\x22\x7d" ∧
    (OtpClient.VerifyOtp oc userId token (constNet 204 hdrs (Except.ok body))).err = none :=
  ⟨rfl, rfl, rfl⟩

/-- C7: the client configuration is immutable: after any of the six
operations the client's `BaseUrl` and `Secret` are what they were before
the call. -/
theorem C7_clientImmutable (oc : OtpClient) (userId : Int) (token : String) (net : Net) :
    ((OtpClient.GetUserOtp oc userId net).client.BaseUrl = oc.BaseUrl ∧
     (OtpClient.GetUserOtp oc userId net).client.Secret = oc.Secret) ∧
    ((OtpClient.CreateUserOtp oc userId net).client.BaseUrl = oc.BaseUrl ∧
     (OtpClient.CreateUserOtp oc userId net).client.Secret = oc.Secret) ∧
    ((OtpClient.DisableUserOtp oc userId net).client.BaseUrl = oc.BaseUrl ∧
     (OtpClient.DisableUserOtp oc userId net).client.Secret = oc.Secret) ∧
    ((OtpClient.DeleteUserOtp oc userId net).client.BaseUrl = oc.BaseUrl ∧
     (OtpClient.DeleteUserOtp oc userId net).client.Secret = oc.Secret) ∧
    ((OtpClient.VerifyOtp oc userId token net).client.BaseUrl = oc.BaseUrl ∧
     (OtpClient.VerifyOtp oc userId token net).client.Secret = oc.Secret) ∧
    ((OtpClient.ValidateOtp oc userId token net).client.BaseUrl = oc.BaseUrl ∧
     (OtpClient.ValidateOtp oc userId token net).client.Secret = oc.Secret) :=
  ⟨⟨rfl, rfl⟩, ⟨rfl, rfl⟩, ⟨rfl, rfl⟩, ⟨rfl, rfl⟩, ⟨rfl, rfl⟩, ⟨rfl, rfl⟩⟩

/-- C1 counterexample: at status 204 (which lies in [200,299]) with a
well-formed `CreateUserOtp` success body, `CreateUserOtp` returns success
but its value is the zero value, not the value decoded from the body:
`Post` returns early on 204 without decoding. -/
theorem C1_counterexample :
    parseJson CreateUserOtpResponse (some sampleCreateJson) =
      Except.ok { Secret := "abc", AuthUrl := "xyz" } ∧
    (OtpClient.CreateUserOtp sampleOc 7
        (constNet 204 [] (Except.ok (some sampleCreateJson)))).err = none ∧
    (OtpClient.CreateUserOtp sampleOc 7
        (constNet 204 [] (Except.ok (some sampleCreateJson)))).value ≠
      { Secret := "abc", AuthUrl := "xyz" } :=
  ⟨rfl, rfl, by decide⟩

/-- C1 (amended): for a response status in [200,299] with a well-formed
body each of the six operations returns success; `GetUserOtp` returns the
value decoded from the body, and `CreateUserOtp` does too except at
status 204, where it returns the zero value without decoding; the four
no-content operations return no error for any status in [200,299]
whatever the body. -/
theorem C1_successDecoding (oc : OtpClient) (userId : Int) (token : String) (s : Nat)
    (hdrs : List (String × List String)) (body : Option Json)
    (h1 : 200 ≤ s) (h2 : s ≤ 299) :
    (∀ v, parseJson GetUserOtpResponse body = Except.ok v →
      (OtpClient.GetUserOtp oc userId (constNet s hdrs (Except.ok body))).value = v ∧
      (OtpClient.GetUserOtp oc userId (constNet s hdrs (Except.ok body))).err = none) ∧
    (∀ v, s ≠ 204 → parseJson CreateUserOtpResponse body = Except.ok v →
      (OtpClient.CreateUserOtp oc userId (constNet s hdrs (Except.ok body))).value = v ∧
      (OtpClient.CreateUserOtp oc userId (constNet s hdrs (Except.ok body))).err = none) ∧
    ((OtpClient.CreateUserOtp oc userId (constNet 204 hdrs (Except.ok body))).value =
        { Secret := "", AuthUrl := "" } ∧
     (OtpClient.CreateUserOtp oc userId (constNet 204 hdrs (Except.ok body))).err = none) ∧
    ((OtpClient.DisableUserOtp oc userId (constNet s hdrs (Except.ok body))).err = none) ∧
    ((OtpClient.DeleteUserOtp oc userId (constNet s hdrs (Except.ok body))).err = none) ∧
    ((OtpClient.VerifyOtp oc userId token (constNet s hdrs (Except.ok body))).err = none) ∧
    ((OtpClient.ValidateOtp oc userId token (constNet s hdrs (Except.ok body))).err = none) := by
  have h404 : s ≠ 404 := by omega
  refine ⟨?_, ?_, ⟨rfl, rfl⟩, ?_, ?_, ?_, ?_⟩
  · intro v hp
    have hg := getRespond_2xx_ok GetUserOtpResponse s hdrs body v h1 h2 hp
    simp only [OtpClient.GetUserOtp, getRequest, prepareRequest, Get, constNet, getBuild, hg,
      handleResponseWithBody, handleResponse_noError _ _ _ h404]
    exact ⟨trivial, trivial⟩
  · intro v h204 hp
    have hg := postRespond_2xx_ok CreateUserOtpResponse s hdrs body v h1 h2 h204 hp
    simp only [OtpClient.CreateUserOtp, postRequest, prepareRequest, Post, constNet, postBuild,
      hg, handleResponseWithBody, handleResponse_noError _ _ _ h404]
    exact ⟨trivial, trivial⟩
  · have hg := noContentRespond_2xx s hdrs body h1 h2
    simp only [OtpClient.DisableUserOtp, postRequestWithNoContent, prepareRequest,
      PostWithNoContent, constNet, postBuild, hg, handleResponse_noError _ _ _ h404]
  · have hg := noContentRespond_2xx s hdrs body h1 h2
    simp only [OtpClient.DeleteUserOtp, deleteRequestWithNoContent, prepareRequest,
      DeleteWithNoContent, constNet, deleteBuild, hg, handleResponse_noError _ _ _ h404]
  · have hg := noContentRespond_2xx s hdrs body h1 h2
    simp only [OtpClient.VerifyOtp, postRequestWithBodyWithNoContent, prepareRequest,
      PostWithBodyWithNoContent, instToJsonVerify, constNet, postWithBodyNoContentBuild, hg,
      handleResponse_noError _ _ _ h404]
  · have hg := noContentRespond_2xx s hdrs body h1 h2
    simp only [OtpClient.ValidateOtp, postRequestWithBodyWithNoContent, prepareRequest,
      PostWithBodyWithNoContent, instToJsonValidate, constNet, postWithBodyNoContentBuild, hg,
      handleResponse_noError _ _ _ h404]

/-- Witness for C1 at a concrete 200 response with a decodable body. -/
theorem C1_successDecoding_witness :
    (OtpClient.GetUserOtp sampleOc 9 (constNet 200 [] (Except.ok (some sampleGetJson)))).value =
      { Verified := true, Enabled := false, Secret := "k1", AuthUrl := "u1" } ∧
    (OtpClient.GetUserOtp sampleOc 9 (constNet 200 [] (Except.ok (some sampleGetJson)))).err =
      none :=
  (C1_successDecoding sampleOc 9 "t" 200 [] (some sampleGetJson) (by decide) (by decide)).1
    { Verified := true, Enabled := false, Secret := "k1", AuthUrl := "u1" } rfl

/-- C4 counterexample: on a 500 response `Get` does not defer the
success-type decode: it decodes the body into the declared success type
on the same call, so the returned body is not the zero value. -/
theorem C4_counterexample :
    ((Get CreateUserOtpResponse (constNet 500 [] (Except.ok (some sampleMixedJson)))
        { Url := "u" }).value.HasError = true) ∧
    ((Get CreateUserOtpResponse (constNet 500 [] (Except.ok (some sampleMixedJson)))
        { Url := "u" }).value.ErrorBody = { Problem := "x" }) ∧
    ((Get CreateUserOtpResponse (constNet 500 [] (Except.ok (some sampleMixedJson)))
        { Url := "u" }).value.Body = { Secret := "leak", AuthUrl := "" }) ∧
    ((Get CreateUserOtpResponse (constNet 500 [] (Except.ok (some sampleMixedJson)))
        { Url := "u" }).value.Body ≠ ({ Secret := "", AuthUrl := "" } : CreateUserOtpResponse)) :=
  ⟨rfl, rfl, rfl, by decide⟩

/-- C4 (amended): for a response status outside [200,299] and not 404,
every transport helper decodes the body as the error payload
`{problem: string}` and sets the error flag; but `Get`, `Post` and
`PostWithBody` still perform the success-type decode on the same call,
storing its value or returning its error, while the three no-content
helpers perform no success-type decode and return no error. -/
theorem C4_errorFlagAndDecode (T : Type) [Inhabited T] [FromJson T]
    (s : Nat) (hdrs : List (String × List String)) (body : Option Json) (eb : ErrorBody)
    (request : HttpRequest) (requestB : HttpRequestWithBody VerifyOtpRequest)
    (hs : s < 200 ∨ 299 < s) (h404 : s ≠ 404)
    (heb : parseJson ErrorBody body = Except.ok eb) :
    (∀ v, parseJson T body = Except.ok v →
      (Get T (constNet s hdrs (Except.ok body)) request).value.HasError = true ∧
      (Get T (constNet s hdrs (Except.ok body)) request).value.ErrorBody = eb ∧
      (Get T (constNet s hdrs (Except.ok body)) request).value.Body = v ∧
      (Get T (constNet s hdrs (Except.ok body)) request).err = none) ∧
    (∀ msg, parseJson T body = Except.error msg →
      (Get T (constNet s hdrs (Except.ok body)) request).value.HasError = true ∧
      (Get T (constNet s hdrs (Except.ok body)) request).value.ErrorBody = eb ∧
      (Get T (constNet s hdrs (Except.ok body)) request).err = some msg) ∧
    (∀ v, parseJson T body = Except.ok v →
      (Post T (constNet s hdrs (Except.ok body)) request).value.HasError = true ∧
      (Post T (constNet s hdrs (Except.ok body)) request).value.ErrorBody = eb ∧
      (Post T (constNet s hdrs (Except.ok body)) request).value.Body = v ∧
      (Post T (constNet s hdrs (Except.ok body)) request).err = none) ∧
    (∀ msg, parseJson T body = Except.error msg →
      (Post T (constNet s hdrs (Except.ok body)) request).value.HasError = true ∧
      (Post T (constNet s hdrs (Except.ok body)) request).value.ErrorBody = eb ∧
      (Post T (constNet s hdrs (Except.ok body)) request).err = some msg) ∧
    (∀ v, parseJson T body = Except.ok v →
      (PostWithBody VerifyOtpRequest T (constNet s hdrs (Except.ok body)) requestB).value.Body
        = v ∧
      (PostWithBody VerifyOtpRequest T (constNet s hdrs (Except.ok body)) requestB).err
        = none) ∧
    (∀ msg, parseJson T body = Except.error msg →
      (PostWithBody VerifyOtpRequest T (constNet s hdrs (Except.ok body)) requestB).err
        = some msg) ∧
    ((PostWithNoContent (constNet s hdrs (Except.ok body)) request).value.HasError = true ∧
     (PostWithNoContent (constNet s hdrs (Except.ok body)) request).value.ErrorBody = eb ∧
     (PostWithNoContent (constNet s hdrs (Except.ok body)) request).err = none) ∧
    ((PostWithBodyWithNoContent VerifyOtpRequest (constNet s hdrs (Except.ok body))
        requestB).value.HasError = true ∧
     (PostWithBodyWithNoContent VerifyOtpRequest (constNet s hdrs (Except.ok body))
        requestB).value.ErrorBody = eb ∧
     (PostWithBodyWithNoContent VerifyOtpRequest (constNet s hdrs (Except.ok body))
        requestB).err = none) ∧
    ((DeleteWithNoContent (constNet s hdrs (Except.ok body)) request).value.HasError = true ∧
     (DeleteWithNoContent (constNet s hdrs (Except.ok body)) request).value.ErrorBody = eb ∧
     (DeleteWithNoContent (constNet s hdrs (Except.ok body)) request).err = none) := by
  refine ⟨?_, ?_, ?_, ?_, ?_, ?_, ?_, ?_, ?_⟩
  · intro v hp
    have hg := getRespond_errStatus_ok T s hdrs body eb v hs h404 heb hp
    simp only [Get, constNet, getBuild, hg]
    exact ⟨trivial, trivial, trivial, trivial⟩
  · intro msg hp
    have hg := getRespond_errStatus_fail T s hdrs body eb msg hs h404 heb hp
    simp only [Get, constNet, getBuild, hg]
    exact ⟨trivial, trivial, trivial⟩
  · intro v hp
    have hg := postRespond_errStatus_ok T s hdrs body eb v hs h404 heb hp
    simp only [Post, constNet, postBuild, hg]
    exact ⟨trivial, trivial, trivial, trivial⟩
  · intro msg hp
    have hg := postRespond_errStatus_fail T s hdrs body eb msg hs h404 heb hp
    simp only [Post, constNet, postBuild, hg]
    exact ⟨trivial, trivial, trivial⟩
  · intro v hp
    have hg := postRespond_errStatus_ok T s hdrs body eb v hs h404 heb hp
    simp only [PostWithBody, instToJsonVerify, constNet, postWithBodyBuild, hg]
    exact ⟨trivial, trivial⟩
  · intro msg hp
    have hg := postRespond_errStatus_fail T s hdrs body eb msg hs h404 heb hp
    simp only [PostWithBody, instToJsonVerify, constNet, postWithBodyBuild, hg]
  · have hg := noContentRespond_errStatus s hdrs body eb hs h404 heb
    simp only [PostWithNoContent, constNet, postBuild, hg]
    exact ⟨trivial, trivial, trivial⟩
  · have hg := noContentRespond_errStatus s hdrs body eb hs h404 heb
    simp only [PostWithBodyWithNoContent, instToJsonVerify, constNet,
      postWithBodyNoContentBuild, hg]
    exact ⟨trivial, trivial, trivial⟩
  · have hg := noContentRespond_errStatus s hdrs body eb hs h404 heb
    simp only [DeleteWithNoContent, constNet, deleteBuild, hg]
    exact ⟨trivial, trivial, trivial⟩

/-- Witness for C4 at a concrete 500 response whose body decodes as an
error payload and (vacuously, to the zero value) as the success type. -/
theorem C4_errorFlagAndDecode_witness :
    (Get CreateUserOtpResponse (constNet 500 [] (Except.ok (some sampleProblemJson)))
        { Url := "u" }).value.HasError = true ∧
    (Get CreateUserOtpResponse (constNet 500 [] (Except.ok (some sampleProblemJson)))
        { Url := "u" }).value.ErrorBody = { Problem := "boom" } ∧
    (Get CreateUserOtpResponse (constNet 500 [] (Except.ok (some sampleProblemJson)))
        { Url := "u" }).value.Body = { Secret := "", AuthUrl := "" } ∧
    (Get CreateUserOtpResponse (constNet 500 [] (Except.ok (some sampleProblemJson)))
        { Url := "u" }).err = none :=
  (C4_errorFlagAndDecode CreateUserOtpResponse 500 [] (some sampleProblemJson) ⟨"boom"⟩
      { Url := "u" } sampleBodyReq (by omega) (by decide) rfl).1
    { Secret := "", AuthUrl := "" } rfl

/-- C8: whenever `GetUserOtp` or `CreateUserOtp` returns a non-nil error,
the accompanying response value is the zero value of its response type. -/
theorem C8_zeroValueOnError (oc : OtpClient) (userId : Int) (net : Net) :
    ((OtpClient.GetUserOtp oc userId net).err ≠ none →
      (OtpClient.GetUserOtp oc userId net).value =
        { Verified := false, Enabled := false, Secret := "", AuthUrl := "" }) ∧
    ((OtpClient.CreateUserOtp oc userId net).err ≠ none →
      (OtpClient.CreateUserOtp oc userId net).value = { Secret := "", AuthUrl := "" }) := by
  constructor
  · intro h
    simp only [OtpClient.GetUserOtp] at h ⊢
    split at h
    next e heq => rfl
    next heq => exact absurd rfl h
  · intro h
    simp only [OtpClient.CreateUserOtp] at h ⊢
    split at h
    next e heq => rfl
    next heq => exact absurd rfl h

/-- Witness for C8 on a network failure. -/
theorem C8_zeroValueOnError_witness :
    (OtpClient.GetUserOtp sampleOc 3 (failNet "conn refused")).err ≠ none ∧
    (OtpClient.GetUserOtp sampleOc 3 (failNet "conn refused")).value =
      { Verified := false, Enabled := false, Secret := "", AuthUrl := "" } :=
  ⟨by decide, (C8_zeroValueOnError sampleOc 3 (failNet "conn refused")).1 (by decide)⟩

/-- C9: `Get` does not special-case 204: it still decodes the body into
the declared success type there (failing with a decode error on an empty
body), whereas `Post`, `PostWithBody`, `PostWithNoContent` and
`PostWithBodyWithNoContent` yield no error and no decoded success body on
204 whatever the body is. -/
theorem C9_get204NoSpecialCase (T : Type) [Inhabited T] [FromJson T] (request : HttpRequest)
    (requestB : HttpRequestWithBody VerifyOtpRequest)
    (hdrs : List (String × List String)) (body : Option Json) :
    ((Get T (constNet 204 hdrs (Except.ok none)) request).err =
        some "unexpected end of JSON input") ∧
    (∀ j v, parseJson T (some j) = Except.ok v →
      (Get T (constNet 204 hdrs (Except.ok (some j))) request).err = none ∧
      (Get T (constNet 204 hdrs (Except.ok (some j))) request).value.Body = v) ∧
    ((Post T (constNet 204 hdrs (Except.ok body)) request).err = none ∧
     (Post T (constNet 204 hdrs (Except.ok body)) request).value.Body = default) ∧
    ((PostWithBody VerifyOtpRequest T (constNet 204 hdrs (Except.ok body)) requestB).err = none ∧
     (PostWithBody VerifyOtpRequest T (constNet 204 hdrs (Except.ok body)) requestB).value.Body
        = default) ∧
    ((PostWithNoContent (constNet 204 hdrs (Except.ok body)) request).err = none) ∧
    ((PostWithBodyWithNoContent VerifyOtpRequest (constNet 204 hdrs (Except.ok body))
        requestB).err = none) := by
  refine ⟨rfl, ?_, ⟨rfl, rfl⟩, ⟨rfl, rfl⟩, rfl, rfl⟩
  intro j v hp
  have hg := getRespond_2xx_ok T 204 hdrs (some j) v (by omega) (by omega) hp
  simp only [Get, constNet, getBuild, hg]
  exact ⟨trivial, trivial⟩

/-- Witness for C9: `Get` at 204 with a decodable body returns the
decoded value. -/
theorem C9_get204NoSpecialCase_witness :
    (Get GetUserOtpResponse (constNet 204 [] (Except.ok (some sampleGetJson)))
        { Url := "u" }).err = none ∧
    (Get GetUserOtpResponse (constNet 204 [] (Except.ok (some sampleGetJson)))
        { Url := "u" }).value.Body =
      { Verified := true, Enabled := false, Secret := "k1", AuthUrl := "u1" } :=
  (C9_get204NoSpecialCase GetUserOtpResponse { Url := "u" } sampleBodyReq [] none).2.1
    sampleGetJson { Verified := true, Enabled := false, Secret := "k1", AuthUrl := "u1" } rfl

/-- C10: requests sent by `PostWithBodyWithNoContent` — hence by
`VerifyOtp` and `ValidateOtp` — carry a JSON-marshalled body but no
`Content-Type` header, whereas `PostWithBody` adds
`Content-Type: application/json`. -/
theorem C10_contentTypeHeader (oc : OtpClient) (userId : Int) (token : String) (net : Net)
    (T1 : Type) [Inhabited T1] [FromJson T1]
    (requestB : HttpRequestWithBody VerifyOtpRequest) :
    ((OtpClient.VerifyOtp oc userId token net).sent.map BuiltRequest.headers =
        [[("X-Secret", oc.Secret), ("User-Agent", UserAgent)]]) ∧
    ((OtpClient.VerifyOtp oc userId token net).sent.map BuiltRequest.body =
        [some (marshalVerifyOtpRequest { UserId := userId, Token := token })]) ∧
    ((OtpClient.ValidateOtp oc userId token net).sent.map BuiltRequest.headers =
        [[("X-Secret", oc.Secret), ("User-Agent", UserAgent)]]) ∧
    ((OtpClient.ValidateOtp oc userId token net).sent.map BuiltRequest.body =
        [some (marshalValidateOtpRequest { UserId := userId, Token := token })]) ∧
    (((OtpClient.VerifyOtp oc userId token net).sent.map BuiltRequest.headers).flatten.map
        Prod.fst = ["X-Secret", "User-Agent"]) ∧
    ((PostWithBodyWithNoContent VerifyOtpRequest net requestB).sent.map BuiltRequest.headers =
        [requestB.Headers ++ [("User-Agent", UserAgent)]]) ∧
    ((PostWithBody VerifyOtpRequest T1 net requestB).sent.map BuiltRequest.headers =
        [requestB.Headers ++
          [("Content-Type", "application/json"), ("User-Agent", UserAgent)]]) :=
  ⟨rfl, rfl, rfl, rfl, rfl, rfl, rfl⟩

end OtpClientGo
